import Mathlib

/-!
Shallow embedding of the BPM-detection pipeline of the `bpm` crate
(`src/lib.rs`, `src/main.rs`).

Conventions of the embedding:
* `f32` values are modelled as exact rationals (`ℚ`).  Every arithmetic
  expression is transcribed from the source; `round` is Rust's
  `f32::round` (half away from zero) and the `as usize` cast saturates
  at zero.
* Rust's `x / 0.0` produces `NaN`/`inf`; in `ℚ` division by zero
  produces `0`.  The only place this matters is the normalization step
  when the maximum energy is zero: in Rust every normalized value is
  `NaN`, every computed autocorrelation entry is `NaN`, and every
  comparison `NaN > t` is `false`; in the `ℚ` model the same entries are
  `0` and every comparison `0 > t` (for the nonnegative thresholds
  involved) is likewise `false`, so both semantics yield the same
  control flow and the same observable result.
* The `usize` subtraction `normalized.len() - lag` in the source panics
  (debug: arithmetic overflow; release: the wrapped bound makes the
  first index access out of bounds) whenever some scanned `lag` exceeds
  the envelope length; likewise `1..autocorr.len() - 1` panics when the
  autocorrelogram is empty.  The embedding returns the explicit outcome
  `Outcome.panics` exactly in those situations.
-/

namespace Bpm

/-- `BpmConfig` (src/lib.rs lines 19-27). -/
structure BpmConfig where
  fft_size : ℕ
  hop_size : ℕ
  min_frequency : ℚ
  max_frequency : ℚ
  min_bpm : ℚ
  max_bpm : ℚ
  autocorr_threshold : ℚ
deriving Repr, DecidableEq

/-- The default configuration (src/lib.rs lines 11-17 and 29-41):
window 2048, hop 1024, band 50-1000 Hz, BPM range 60-180, threshold 0.05. -/
def defaultConfig : BpmConfig :=
  BpmConfig.mk 2048 1024 50 1000 60 180 (1/20)

/-- `BpmError` (src/lib.rs lines 43-53). -/
inductive BpmError where
  | fileNotFound (path : String)
  | unsupportedFormat
  | insufficientData
  | noValidBpm (min max : ℚ)
deriving Repr, DecidableEq

/-- Observable outcome of one call of `detect_from_samples`: a normal
return (`ok`/`err`) or a Rust panic. -/
inductive Outcome where
  | panics
  | ok (bpm : ℚ)
  | err (e : BpmError)
deriving Repr, DecidableEq

/-- Rust's `f32::round`: round half away from zero. -/
def roundHalf (q : ℚ) : ℤ :=
  if 0 ≤ q then ⌊q + 1/2⌋ else -⌊-q + 1/2⌋

/-- `round()` followed by the saturating `as usize` cast. -/
def roundToUsize (q : ℚ) : ℕ :=
  (roundHalf q).toNat

/-- `seconds_per_frame = hop_size / sample_rate` (src/lib.rs line 195). -/
def secondsPerFrame (cfg : BpmConfig) (sample_rate : ℕ) : ℚ :=
  (cfg.hop_size : ℚ) / (sample_rate : ℚ)

/-- `min_frames = (min_bpm / max_bpm / seconds_per_frame).round() as usize`
(src/lib.rs line 196). -/
def minFrames (cfg : BpmConfig) (sample_rate : ℕ) : ℕ :=
  roundToUsize (cfg.min_bpm / cfg.max_bpm / secondsPerFrame cfg sample_rate)

/-- `max_frames = (max_bpm / min_bpm / seconds_per_frame).round() as usize`
(src/lib.rs line 197). -/
def maxFrames (cfg : BpmConfig) (sample_rate : ℕ) : ℕ :=
  roundToUsize (cfg.max_bpm / cfg.min_bpm / secondsPerFrame cfg sample_rate)

/-- The lags scanned by `for lag in min_frames..max_frames`. -/
def lagList (cfg : BpmConfig) (sample_rate : ℕ) : List ℕ :=
  (List.range (maxFrames cfg sample_rate)).drop (minFrames cfg sample_rate)

/-- `energies.iter().fold(0.0, |a, &b| a.max(b))` (src/lib.rs line 191). -/
def maxEnergy (energies : List ℚ) : ℚ :=
  energies.foldl max 0

/-- `energies.iter().map(|&e| e / max_energy).collect()` (src/lib.rs
line 192).  No guard when `maxEnergy` is zero, as in the source. -/
def normalize (energies : List ℚ) : List ℚ :=
  energies.map (fun e => e / maxEnergy energies)

/-- Inner autocorrelation sum for one lag (src/lib.rs lines 201-212):
the mean of `normalized[i] * normalized[i + lag]` over
`i in 0 .. len - lag`, left at `0` when the count is zero. -/
def autocorrAt (normalized : List ℚ) (lag : ℕ) : ℚ :=
  let count := normalized.length - lag
  if 0 < count then
    ((List.range count).map
      (fun i => normalized.getD i 0 * normalized.getD (i + lag) 0)).sum / (count : ℚ)
  else 0

/-- The autocorrelogram `vec![0.0; max_frames]` with entries written for
lags in `min_frames..max_frames` (src/lib.rs lines 199-213). -/
def autocorrelogram (cfg : BpmConfig) (normalized : List ℚ) (sample_rate : ℕ) : List ℚ :=
  (List.range (maxFrames cfg sample_rate)).map
    (fun lag => if minFrames cfg sample_rate ≤ lag then autocorrAt normalized lag else 0)

/-- Peak collection (src/lib.rs lines 216-223): scan `i in
1..autocorr.len()-1`; keep `(i, autocorr[i])` when the score exceeds the
threshold and strictly exceeds both neighbours. -/
def findPeaks (cfg : BpmConfig) (ac : List ℚ) : List (ℕ × ℚ) :=
  (List.range' 1 (ac.length - 2)).filterMap
    (fun i =>
      if ac.getD i 0 > cfg.autocorr_threshold ∧
          ac.getD i 0 > ac.getD (i - 1) 0 ∧
          ac.getD i 0 > ac.getD (i + 1) 0 then
        some (i, ac.getD i 0)
      else none)

/-- `peaks.sort_by(|a, b| b.1.partial_cmp(&a.1).unwrap())` (src/lib.rs
line 225): a stable sort by descending score. -/
def sortPeaks (peaks : List (ℕ × ℚ)) : List (ℕ × ℚ) :=
  peaks.mergeSort (fun a b => decide (b.2 ≤ a.2))

/-- Lag-to-BPM conversion of the library (src/lib.rs lines 230-231):
`interval = lag * seconds_per_frame; bpm = min_bpm / interval`. -/
def bpmOfLag (cfg : BpmConfig) (sample_rate : ℕ) (lag : ℕ) : ℚ :=
  cfg.min_bpm / ((lag : ℚ) * secondsPerFrame cfg sample_rate)

/-- Candidate conversion (src/lib.rs lines 228-235): take at most the
first five sorted peaks, convert each lag to a BPM with `bpmOfLag`, and
keep `(bpm, magnitude)` iff `min_bpm <= bpm <= max_bpm`. -/
def toCandidates (cfg : BpmConfig) (sample_rate : ℕ) (peaks : List (ℕ × ℚ)) :
    List (ℚ × ℚ) :=
  (peaks.take 5).filterMap
    (fun p =>
      let bpm := bpmOfLag cfg sample_rate p.1
      if cfg.min_bpm ≤ bpm ∧ bpm ≤ cfg.max_bpm then some (bpm, p.2) else none)

/-- Final selection (src/lib.rs lines 244-255): keep the top candidate
unless a second exists whose magnitude is within 10% (relative to the
top's) and whose BPM is strictly greater, in which case take the second.
The `[]` case is unreachable: the caller checks `candidates.is_empty()`
first. -/
def selectBest (candidates : List (ℚ × ℚ)) : ℚ × ℚ :=
  match candidates with
  | [] => (0, 0)
  | [c1] => c1
  | c1 :: c2 :: _ =>
    if |c1.2 - c2.2| / c1.2 < 1/10 ∧ c2.1 > c1.1 then c2 else c1

/-- The sorted candidate list produced inside `detect_from_samples`. -/
def candidatesOf (cfg : BpmConfig) (energies : List ℚ) (sample_rate : ℕ) : List (ℚ × ℚ) :=
  toCandidates cfg sample_rate
    (sortPeaks (findPeaks cfg (autocorrelogram cfg (normalize energies) sample_rate)))

/-- `BpmDetector::detect_from_samples` (src/lib.rs lines 185-258).
The two `Outcome.panics` branches model the `usize` underflows described
in the module comment; everything else is a direct transcription. -/
def detect_from_samples (cfg : BpmConfig) (energies : List ℚ) (sample_rate : ℕ) : Outcome :=
  if energies.length < 3 then
    Outcome.err BpmError.insufficientData
  else if (lagList cfg sample_rate).any
      (fun lag => (normalize energies).length < lag) then
    Outcome.panics
  else if maxFrames cfg sample_rate = 0 then
    Outcome.panics
  else if candidatesOf cfg energies sample_rate = [] then
    Outcome.err (BpmError.noValidBpm cfg.min_bpm cfg.max_bpm)
  else
    Outcome.ok ((roundHalf ((selectBest (candidatesOf cfg energies sample_rate)).1 * 2) : ℚ) / 2)

/-- Canonical tempo-to-lag minimum of the spec:
`round((60 / max_bpm) / seconds_per_hop)`. -/
def specMinLag (cfg : BpmConfig) (sample_rate : ℕ) : ℕ :=
  roundToUsize ((60 / cfg.max_bpm) / secondsPerFrame cfg sample_rate)

/-- Canonical tempo-to-lag maximum of the spec:
`round((60 / min_bpm) / seconds_per_hop)`. -/
def specMaxLag (cfg : BpmConfig) (sample_rate : ℕ) : ℕ :=
  roundToUsize ((60 / cfg.min_bpm) / secondsPerFrame cfg sample_rate)

/-- Canonical lag-to-tempo conversion of the spec:
`bpm = 60 / (lag * seconds_per_hop)`. -/
def specBpmOfLag (cfg : BpmConfig) (sample_rate : ℕ) (lag : ℕ) : ℚ :=
  60 / ((lag : ℚ) * secondsPerFrame cfg sample_rate)

/-- Sample pushed per frame by `detect_from_file` for an `F32` buffer
(src/lib.rs line 114): channel 0's value, `buf.chan(0)[frame_idx]`.
The buffer is modelled as its list of channels, each a list of frames. -/
def fileSampleF32 (chans : List (List ℚ)) (frameIdx : ℕ) : ℚ :=
  (chans.getD 0 []).getD frameIdx 0

/-- Sample pushed per frame by `detect_from_file` for an `S16` buffer
(src/lib.rs line 136): `buf.chan(0)[frame_idx] as f32 / i16::MAX as f32`. -/
def fileSampleS16 (chans : List (List ℤ)) (frameIdx : ℕ) : ℚ :=
  ((chans.getD 0 []).getD frameIdx 0 : ℚ) / 32767

/-- Sample pushed per frame by `detect_from_file` for a `U8` buffer
(src/lib.rs line 158): `(buf.chan(0)[frame_idx] as f32 - 128.0) / 128.0`. -/
def fileSampleU8 (chans : List (List ℕ)) (frameIdx : ℕ) : ℚ :=
  (((chans.getD 0 []).getD frameIdx 0 : ℚ) - 128) / 128

/-- Mono downmix by channel averaging, as the spec describes it (and as
`main.rs` lines 150-155 implement it for `F32` buffers). -/
def avgDownmixF32 (chans : List (List ℚ)) (frameIdx : ℕ) : ℚ :=
  (chans.map (fun c => c.getD frameIdx 0)).sum / (chans.length : ℚ)

/-! ### Concrete instances used as tests of the pipeline -/

/-- Default configuration except `min_bpm = 90`, exercising the
parameterized BPM conversion. -/
def cfg90 : BpmConfig :=
  BpmConfig.mk 2048 1024 50 1000 90 180 (1/20)

/-- Default configuration except `hop_size = 1`, so that one hop is
`1 / sample_rate` seconds and small envelopes cover the lag range. -/
def cfgHop1 : BpmConfig :=
  BpmConfig.mk 2048 1 50 1000 60 180 (1/20)

/-- A period-2 energy envelope; at `hop_size = 1`, `sample_rate = 2` the
lag-2 peak converts to 60 BPM. -/
def envPeriodic : List ℚ :=
  [1, 1/2, 1, 1/2, 1, 1/2, 1, 1/2]

/-- A period-4 envelope with a strong period-2 sub-harmonic; at
`hop_size = 1`, `sample_rate = 4` it yields the two candidates
`(60, 181/400)` and `(120, 9/20)` with magnitudes within 10%. -/
def envTwoPeaks : List ℚ :=
  [1, 0, 9/10, 0, 1, 0, 9/10, 0, 1, 0, 9/10, 0]

/-! ### Claims -/

/-- Claim C1: the claim states that `detect_from_samples` derives the lag
range from the canonical relation `lag = (60 / bpm) / seconds_per_hop`,
i.e. minimum lag `round((60 / max_bpm) / spf)` and maximum lag
`round((60 / min_bpm) / spf)`.  The code instead computes
`round((min_bpm / max_bpm) / spf)` and `round((max_bpm / min_bpm) / spf)`:
already at the default configuration (`min_bpm = 60`, `max_bpm = 180`,
hop 1024) with sample rate 44100 the code's maximum lag is 129 while the
canonical maximum lag is 43. -/
theorem c1_lag_range_deviates :
    minFrames defaultConfig 44100 = 14 ∧
    maxFrames defaultConfig 44100 = 129 ∧
    specMinLag defaultConfig 44100 = 14 ∧
    specMaxLag defaultConfig 44100 = 43 ∧
    maxFrames defaultConfig 44100 ≠ specMaxLag defaultConfig 44100 := by
  decide!

/-- Claim C2: the claim states that each retained peak at lag `L` is
converted with `bpm = 60 / (L * seconds_per_hop)`.  The code computes
`bpm = min_bpm / (L * seconds_per_hop)`: with `min_bpm = 90` and
one-second hops (hop 1024 at sample rate 1024) a lag-1 peak is converted
to 90 BPM and kept, whereas the canonical conversion yields 60 BPM,
which would be rejected as out of the `[90, 180]` range. -/
theorem c2_bpm_conversion_deviates :
    bpmOfLag cfg90 1024 1 = 90 ∧
    specBpmOfLag cfg90 1024 1 = 60 ∧
    bpmOfLag cfg90 1024 1 ≠ specBpmOfLag cfg90 1024 1 ∧
    toCandidates cfg90 1024 [(1, 1)] = [(90, 1)] := by
  decide!

/-- Claim C3: the claim states that an all-zero envelope with at least 3
entries fails with `InsufficientData` thanks to a guard on the maximum
energy.  The code has no such guard: it divides by the zero maximum
(producing `NaN`s whose comparisons are all false, modelled here by
`0 / 0 = 0`), finds no peaks, and returns `NoValidBpm{60, 180}` instead
of `InsufficientData`. -/
theorem c3_all_zero_envelope_not_insufficient :
    detect_from_samples defaultConfig (List.replicate 130 0) 44100
      = Outcome.err (BpmError.noValidBpm 60 180) := by
  decide!

/-- Claim C4 counterexample: the claim states that `detect_from_samples` never
panics for envelopes of length at least 3.  At the default configuration
and sample rate 44100 the scanned lags reach 128, so on the three-entry
envelope `[1, 1, 1]` the bound `normalized.len() - lag` underflows and
the call panics. -/
theorem c4_counterexample :
    detect_from_samples defaultConfig [1, 1, 1] 44100 = Outcome.panics := by
  decide!

/-- Claim C4 (amended): `detect_from_samples` terminates normally — returning
a BPM or a typed `BpmError` — provided no scanned lag exceeds the
envelope length and the lag range is nonempty (`max_frames > 0`). -/
theorem c4_no_panic_when_lags_fit (cfg : BpmConfig) (energies : List ℚ) (sr : ℕ)
    (h3 : 3 ≤ energies.length)
    (hfit : ∀ lag ∈ lagList cfg sr, lag ≤ energies.length)
    (hmf : maxFrames cfg sr ≠ 0) :
    detect_from_samples cfg energies sr ≠ Outcome.panics := by
  have hlen : ¬ energies.length < 3 := by omega
  have hany : ((lagList cfg sr).any
      (fun lag => decide ((normalize energies).length < lag))) = false := by
    rw [List.any_eq_false]
    intro lag hmem
    simp only [normalize, List.length_map, decide_eq_true_eq, Nat.not_lt]
    exact hfit lag hmem
  unfold detect_from_samples
  rw [if_neg hlen]
  rw [if_neg (by simp [hany])]
  rw [if_neg hmf]
  by_cases hc : candidatesOf cfg energies sr = []
  · rw [if_pos hc]
    intro h
    exact Outcome.noConfusion h
  · rw [if_neg hc]
    intro h
    exact Outcome.noConfusion h

/-- Claim C4 witness: a run where the hypotheses hold and the call indeed does
not panic. -/
theorem c4_witness :
    (3 ≤ envPeriodic.length ∧ (∀ lag ∈ lagList cfgHop1 2, lag ≤ envPeriodic.length) ∧
      maxFrames cfgHop1 2 ≠ 0) ∧
    detect_from_samples cfgHop1 envPeriodic 2 ≠ Outcome.panics :=
  ⟨⟨by decide!, by decide!, by decide!⟩,
    c4_no_panic_when_lags_fit cfgHop1 envPeriodic 2 (by decide!) (by decide!) (by decide!)⟩

/-- Claim C8: any envelope with fewer than 3 entries makes
`detect_from_samples` fail with `InsufficientData`. -/
theorem c8_short_envelope_insufficient (cfg : BpmConfig) (energies : List ℚ)
    (sr : ℕ) (h : energies.length < 3) :
    detect_from_samples cfg energies sr = Outcome.err BpmError.insufficientData := by
  unfold detect_from_samples
  rw [if_pos h]

/-- Claim C8 witness: the two-entry envelope `[1, 2]` at the default
configuration. -/
theorem c8_witness :
    ([1, 2] : List ℚ).length < 3 ∧
    detect_from_samples defaultConfig [1, 2] 44100
      = Outcome.err BpmError.insufficientData :=
  ⟨by decide!, c8_short_envelope_insufficient defaultConfig [1, 2] 44100 (by decide!)⟩

/-- Helper: `sortPeaks` output is sorted by descending score. -/
theorem sortPeaks_sorted (ps : List (ℕ × ℚ)) :
    List.Sorted (fun a b : ℕ × ℚ => b.2 ≤ a.2) (sortPeaks ps) := by
  have pw : (List.mergeSort ps (fun a b : ℕ × ℚ => decide (b.2 ≤ a.2))).Pairwise
      (fun a b : ℕ × ℚ => decide (b.2 ≤ a.2) = true) := by
    apply List.sorted_mergeSort
    · intro a b c h1 h2
      simp only [decide_eq_true_eq] at h1 h2 ⊢
      exact le_trans h2 h1
    · intro a b
      simp only [Bool.or_eq_true, decide_eq_true_eq]
      exact le_total b.2 a.2
  exact pw.imp (fun h => of_decide_eq_true h)

/-- Claim C7: a lag is collected as a peak iff its score exceeds the
threshold and strictly exceeds both neighbours; the peaks are then
sorted by descending score (a permutation of the collected peaks) and at
most the top five are converted to candidates. -/
theorem c7_peak_scan_and_ranking (cfg : BpmConfig) (ac : List ℚ) :
    (∀ lag s, ((lag, s) ∈ findPeaks cfg ac ↔
      1 ≤ lag ∧ lag + 1 < ac.length ∧ s = ac.getD lag 0 ∧
      ac.getD lag 0 > cfg.autocorr_threshold ∧
      ac.getD lag 0 > ac.getD (lag - 1) 0 ∧
      ac.getD lag 0 > ac.getD (lag + 1) 0))
  ∧ List.Sorted (fun a b : ℕ × ℚ => b.2 ≤ a.2) (sortPeaks (findPeaks cfg ac))
  ∧ (sortPeaks (findPeaks cfg ac)).Perm (findPeaks cfg ac)
  ∧ ∀ sr, (toCandidates cfg sr (sortPeaks (findPeaks cfg ac))).length ≤ 5 := by
  refine ⟨?_, sortPeaks_sorted _, ?_, ?_⟩
  · intro lag s
    unfold findPeaks
    rw [List.mem_filterMap]
    constructor
    · rintro ⟨i, hi, hf⟩
      rw [List.mem_range'] at hi
      obtain ⟨j, hj, rfl⟩ := hi
      split at hf
      · rename_i hcond
        simp only [Option.some.injEq, Prod.mk.injEq] at hf
        obtain ⟨rfl, rfl⟩ := hf
        exact ⟨by omega, by omega, rfl, hcond.1, hcond.2.1, hcond.2.2⟩
      · exact absurd hf (by simp)
    · rintro ⟨h1, h2, hs, hgt, hl, hr⟩
      refine ⟨lag, ?_, ?_⟩
      · rw [List.mem_range']
        exact ⟨lag - 1, by omega, by omega⟩
      · rw [if_pos ⟨hgt, hl, hr⟩]
        subst hs
        rfl
  · exact List.mergeSort_perm (findPeaks cfg ac) _
  · intro sr
    unfold toCandidates
    refine le_trans (List.length_filterMap_le _ _) ?_
    simp only [List.length_take]
    omega

/-- Claim C9: whenever the envelope passes the length check, the run
does not panic, and no peak converts to an in-range candidate,
`detect_from_samples` fails with `NoValidBpm` carrying exactly the
configured `min_bpm` and `max_bpm`. -/
theorem c9_empty_candidates_no_valid_bpm (cfg : BpmConfig) (energies : List ℚ)
    (sr : ℕ) (h3 : 3 ≤ energies.length)
    (hnp : detect_from_samples cfg energies sr ≠ Outcome.panics)
    (hc : candidatesOf cfg energies sr = []) :
    detect_from_samples cfg energies sr
      = Outcome.err (BpmError.noValidBpm cfg.min_bpm cfg.max_bpm) := by
  unfold detect_from_samples at hnp ⊢
  rw [if_neg (by omega)] at hnp ⊢
  by_cases h1 : ((lagList cfg sr).any
      (fun lag => decide ((normalize energies).length < lag))) = true
  · rw [if_pos h1] at hnp
    exact absurd rfl hnp
  · rw [if_neg h1] at hnp ⊢
    by_cases h2 : maxFrames cfg sr = 0
    · rw [if_pos h2] at hnp
      exact absurd rfl hnp
    · rw [if_neg h2] at hnp ⊢
      rw [if_pos hc]

/-- Claim C9 witness: an all-equal envelope at `hop_size = 1`,
`sample_rate = 1` has no strict autocorrelation peak, so no candidate
survives and the configured bounds 60 and 180 are reported. -/
theorem c9_witness :
    detect_from_samples cfgHop1 [1, 1, 1, 1] 1
      = Outcome.err (BpmError.noValidBpm 60 180) :=
  c9_empty_candidates_no_valid_bpm cfgHop1 [1, 1, 1, 1] 1
    (by decide!) (by decide!) (by decide!)

/-- Claim C5: after the candidates are sorted by descending magnitude,
the second candidate's BPM is selected exactly when it exists, its
magnitude is within 10% of the top candidate's (relative to the top's),
and its BPM is strictly greater; in every other case the top candidate's
BPM is selected; a successful run returns the quantized selection. -/
theorem c5_selection_rule (cfg : BpmConfig) (energies : List ℚ) (sr : ℕ) :
    (∀ c1 c2 rest, candidatesOf cfg energies sr = c1 :: c2 :: rest →
      selectBest (candidatesOf cfg energies sr)
        = if |c1.2 - c2.2| / c1.2 < 1/10 ∧ c2.1 > c1.1 then c2 else c1)
  ∧ (∀ c1, candidatesOf cfg energies sr = [c1] →
      selectBest (candidatesOf cfg energies sr) = c1)
  ∧ (candidatesOf cfg energies sr ≠ [] → 3 ≤ energies.length →
      detect_from_samples cfg energies sr ≠ Outcome.panics →
      detect_from_samples cfg energies sr
        = Outcome.ok ((roundHalf ((selectBest (candidatesOf cfg energies sr)).1 * 2) : ℚ) / 2)) := by
  refine ⟨?_, ?_, ?_⟩
  · intro c1 c2 rest hc
    rw [hc]
    rfl
  · intro c1 hc
    rw [hc]
    rfl
  · intro hne h3 hnp
    unfold detect_from_samples at hnp ⊢
    rw [if_neg (by omega)] at hnp ⊢
    by_cases h1 : ((lagList cfg sr).any
        (fun lag => decide ((normalize energies).length < lag))) = true
    · rw [if_pos h1] at hnp
      exact absurd rfl hnp
    · rw [if_neg h1] at hnp ⊢
      by_cases h2 : maxFrames cfg sr = 0
      · rw [if_pos h2] at hnp
        exact absurd rfl hnp
      · rw [if_neg h2] at hnp ⊢
        rw [if_neg hne]

/-- Claim C5 witness: on `envTwoPeaks` the candidates are
`[(60, 181/400), (120, 9/20)]`, the magnitudes differ by less than 10%
of the top's, and the faster 120 BPM is selected. -/
theorem c5_witness :
    candidatesOf cfgHop1 envTwoPeaks 4 = [(60, 181/400), (120, 9/20)] ∧
    selectBest (candidatesOf cfgHop1 envTwoPeaks 4) = (120, 9/20) := by
  have hc : candidatesOf cfgHop1 envTwoPeaks 4 = [(60, 181/400), (120, 9/20)] := by
    decide!
  have hs := (c5_selection_rule cfgHop1 envTwoPeaks 4).1 (60, 181/400) (120, 9/20) [] hc
  refine ⟨hc, ?_⟩
  rw [hs]
  decide!

/-- Claim C10: every successful detection returns exactly
`round(selected_bpm * 2) / 2` of the selected candidate, an exact
multiple of one half. -/
theorem c10_result_is_half_multiple (cfg : BpmConfig) (energies : List ℚ)
    (sr : ℕ) (v : ℚ)
    (h : detect_from_samples cfg energies sr = Outcome.ok v) :
    v = (roundHalf ((selectBest (candidatesOf cfg energies sr)).1 * 2) : ℚ) / 2 ∧
    ∃ n : ℤ, v = (n : ℚ) / 2 := by
  unfold detect_from_samples at h
  split at h
  · simp at h
  · split at h
    · simp at h
    · split at h
      · simp at h
      · split at h
        · simp at h
        · rw [Outcome.ok.injEq] at h
          subst h
          exact ⟨rfl, roundHalf ((selectBest (candidatesOf cfg energies sr)).1 * 2), rfl⟩

/-- Claim C10 witness: the periodic envelope detects 60 BPM, which is
the quantized selection and a multiple of one half. -/
theorem c10_witness :
    detect_from_samples cfgHop1 envPeriodic 2 = Outcome.ok 60 ∧
    (60 : ℚ) = (roundHalf ((selectBest (candidatesOf cfgHop1 envPeriodic 2)).1 * 2) : ℚ) / 2 ∧
    ∃ n : ℤ, (60 : ℚ) = (n : ℚ) / 2 :=
  ⟨by decide!, c10_result_is_half_multiple cfgHop1 envPeriodic 2 60 (by decide!)⟩

/-- Claim C6 counterexample: the claim states that `detect_from_file`
downmixes multi-channel frames by averaging.  For a two-channel `F32`
frame with samples 1 and 0 the code pushes channel 0's value 1, not the
average 1/2. -/
theorem c6_counterexample :
    fileSampleF32 [[1], [0]] 0 = 1 ∧
    avgDownmixF32 [[1], [0]] 0 = 1/2 ∧
    fileSampleF32 [[1], [0]] 0 ≠ avgDownmixF32 [[1], [0]] 0 := by
  decide!

/-- Claim C6 (amended): for every decoded buffer format, the sample
pushed into the analysis buffer is the converted value of channel 0
alone — the result is the same as for a source consisting of only the
first channel — rather than the average over all channels. -/
theorem c6_first_channel_only (chans : List (List ℚ)) (chansI : List (List ℤ))
    (chansN : List (List ℕ)) (idx : ℕ) :
    fileSampleF32 chans idx = fileSampleF32 [chans.getD 0 []] idx ∧
    fileSampleS16 chansI idx = fileSampleS16 [chansI.getD 0 []] idx ∧
    fileSampleU8 chansN idx = fileSampleU8 [chansN.getD 0 []] idx :=
  ⟨rfl, rfl, rfl⟩

end Bpm
